import Mathlib

/-!
# Leave-management system: shallow embedding and verification

This file embeds the backend of the leave-management repository
(Express routes over Mongoose models) as pure Lean functions and proves
properties of the leave-request lifecycle: submission validation
(date range, overlap, urgency), the approve/reject state machine,
cancellation, profile updates and the not-found/forbidden check order.

Modelling conventions:
* Dates are `Int` millisecond timestamps (JS `Date` comparisons are numeric);
  the ISO-8601 parse step of the routes is not modelled since dates enter
  the embedding already parsed.
* Document ids and user ids are `Nat` (Mongo ObjectIds are opaque ids).
* The leave-request collection is a `List LeaveRequest`; `findById` is a
  list lookup, an insert appends, `findByIdAndDelete` filters.
* Each Express handler becomes a function returning an `HResp`
  (the HTTP status code and error payload actually produced by the route)
  together with the resulting store.  `authenticateToken` is modelled by
  passing the already-authenticated actor's role and id as arguments.
* Mongoose `save()` validation (schema path validators plus the
  `pre('save')` hooks) is the predicate `savePasses`; a failing save is
  caught by each route's `catch` block, which maps it to a generic 500
  response, so only *whether* the save passes is observable.
-/

namespace LeaveMgmt

/-- Roles of `userSchema.role` (enum in User model). -/
inductive Role where
  | student | caretaker | warden | admin
deriving DecidableEq, Repr

/-- Statuses of `leaveRequestSchema.status` (enum, default `pending`). -/
inductive Status where
  | pending | approved | rejected
deriving DecidableEq, Repr

/-- Leave types of `leaveRequestSchema.type` (enum `['day','home']`). -/
inductive LeaveType where
  | day | home
deriving DecidableEq, Repr

/-- The `contactDetails` sub-document of a leave request. -/
structure ContactDetails where
  address : String
  phone : String
  emergencyName : String
  emergencyRelationship : String
  emergencyPhone : String
deriving DecidableEq, Repr

/-- A persisted `LeaveRequest` document. -/
structure LeaveRequest where
  id : Nat
  student : Nat
  fromDate : Int
  toDate : Int
  reason : String
  ltype : LeaveType
  status : Status
  remarks : Option String
  approvedBy : Option Nat
  approvedAt : Option Int
  contact : ContactDetails
  isUrgent : Bool
  urgentReason : Option String
deriving DecidableEq, Repr

/-- The leave-request collection. -/
abbrev Store := List LeaveRequest

/-- Lookup `LeaveRequest.findById(id)`. -/
def findById (store : Store) (id : Nat) : Option LeaveRequest :=
  store.find? (fun r => r.id = id)

/-- Persisting `save()` on an existing document persists the in-memory document over
the stored one with the same `_id`. -/
def replaceById (store : Store) (doc : LeaveRequest) : Store :=
  store.map (fun r => if r.id = doc.id then doc else r)

/-- Deletion `LeaveRequest.findByIdAndDelete(id)`. -/
def deleteById (store : Store) (id : Nat) : Store :=
  store.filter (fun r => r.id ≠ id)

/-- The observable outcome of a route: success, a 400 `{errors: [...]}`
express-validator response, or an `{error: ...}` response with its HTTP
status code. -/
inductive HResp where
  | ok
  | errs (code : Nat) (msgs : List String)
  | err (code : Nat) (msg : String)
deriving DecidableEq, Repr

/-- Capability check `userSchema.methods.canApproveLeaves`:
`['caretaker','warden','admin'].includes(this.role)`. -/
def canApproveLeaves (r : Role) : Bool :=
  match r with
  | .caretaker | .warden | .admin => true
  | .student => false

/-- Characters removed by the `.trim()` sanitizers: leading and trailing
whitespace, implemented over the character list so that concrete inputs
evaluate inside the kernel. -/
def trimChars (cs : List Char) : List Char :=
  ((cs.dropWhile Char.isWhitespace).reverse.dropWhile Char.isWhitespace).reverse

/-- Sanitizer `.trim()` of the express-validator chains / Mongoose `trim: true`. -/
def jsTrim (s : String) : String :=
  String.mk (trimChars s.toList)

/-- Suffix test `s.endsWith(suf)` over character lists. -/
def suffixIs (s suf : String) : Bool :=
  decide (suf.toList.length ≤ s.toList.length) &&
  decide (s.toList.drop (s.toList.length - suf.toList.length) = suf.toList)

/-- The part of `s` before a suffix of the given length. -/
def dropSuffixStr (s suf : String) : String :=
  String.mk (s.toList.take (s.toList.length - suf.toList.length))

/-- JS regex `/^[0-9]{10}$/` used for all phone fields. -/
def isTenDigits (s : String) : Bool :=
  s.length = 10 && s.toList.all Char.isDigit

/-- Mongoose validation run by `save()` on a leave-request document:
schema path validators (required/maxlength/format) together with the two
`pre('save')` hooks (date ordering against save-time `now`, urgency
reason presence).  The hooks duplicate the `fromDate`/`toDate`/
`urgentReason` path validators, so one conjunct each suffices. -/
def savePasses (doc : LeaveRequest) (now : Int) : Bool :=
  -- fromDate validator `v >= new Date()` / hook `fromDate < new Date()`
  decide (now ≤ doc.fromDate) &&
  -- toDate validator `v >= this.fromDate` / hook `toDate < fromDate`
  decide (doc.fromDate ≤ doc.toDate) &&
  -- reason: required, maxlength 500
  (doc.reason ≠ "" && doc.reason.length ≤ 500 : Bool) &&
  -- remarks: maxlength 200 (not required)
  (match doc.remarks with | some r => r.length ≤ 200 | none => true : Bool) &&
  -- contactDetails.*: required, maxlength / 10-digit phone format
  (doc.contact.address ≠ "" && doc.contact.address.length ≤ 300 : Bool) &&
  isTenDigits doc.contact.phone &&
  (doc.contact.emergencyName ≠ "" && doc.contact.emergencyName.length ≤ 100 : Bool) &&
  (doc.contact.emergencyRelationship ≠ "" && doc.contact.emergencyRelationship.length ≤ 50 : Bool) &&
  isTenDigits doc.contact.emergencyPhone &&
  -- urgentReason: maxlength 200, and hook `isUrgent && !urgentReason`
  (match doc.urgentReason with | some u => u.length ≤ 200 | none => true : Bool) &&
  !(doc.isUrgent && (doc.urgentReason.getD "") = "")

/-! ## POST /apply (submission) -/

/-- The request body of `POST /apply`, already JSON-decoded.
`isUrgent` and `urgentReason` are optional fields. -/
structure ApplyBody where
  fromDate : Int
  toDate : Int
  reason : String
  ltype : LeaveType
  contact : ContactDetails
  isUrgent : Option Bool
  urgentReason : Option String
deriving DecidableEq, Repr

/-- The express-validator chain of `POST /apply`, collecting every failing
field check (in declaration order) the way `validationResult(req).array()`
does.  `fromDate`/`toDate` `isISO8601`, `type` `isIn` and `isUrgent`
`isBoolean` always hold in the embedding since the fields enter already
typed.  The `.trim()` sanitizers are applied to the checked values. -/
def applyFieldErrors (b : ApplyBody) : List String :=
  (if ¬(10 ≤ (jsTrim b.reason).length ∧ (jsTrim b.reason).length ≤ 500) then
    ["Reason must be between 10 and 500 characters"] else []) ++
  (if ¬(10 ≤ (jsTrim b.contact.address).length ∧ (jsTrim b.contact.address).length ≤ 300) then
    ["Address must be between 10 and 300 characters"] else []) ++
  (if ¬(isTenDigits b.contact.phone) then
    ["Valid phone number is required"] else []) ++
  (if ¬(2 ≤ (jsTrim b.contact.emergencyName).length ∧ (jsTrim b.contact.emergencyName).length ≤ 100) then
    ["Emergency contact name is required"] else []) ++
  (if ¬(2 ≤ (jsTrim b.contact.emergencyRelationship).length ∧ (jsTrim b.contact.emergencyRelationship).length ≤ 50) then
    ["Emergency contact relationship is required"] else []) ++
  (if ¬(isTenDigits b.contact.emergencyPhone) then
    ["Valid emergency contact phone is required"] else []) ++
  (match b.urgentReason with
   | some u => if ¬((jsTrim u).length ≤ 200) then ["Urgent reason cannot exceed 200 characters"] else []
   | none => [])

/-- The `$or`-wrapped overlap query of `POST /apply`:
`student: studentId, status: {$in: ['pending','approved']},
fromDate: {$lte: toDateObj}, toDate: {$gte: fromDateObj}` returns at
least one document. -/
def overlapExists (store : Store) (studentId : Nat) (fromD toD : Int) : Bool :=
  store.any (fun r =>
    r.student = studentId &&
    (r.status = Status.pending || r.status = Status.approved) &&
    decide (r.fromDate ≤ toD) && decide (r.toDate ≥ fromD))

/-- The document `new LeaveRequest({...})` built by `POST /apply`
(trim sanitizers applied by the validator chain / schema;
`isUrgent: isUrgent || false`, `urgentReason: isUrgent ? urgentReason :
undefined`; status defaults to `pending`). -/
def newLeaveDoc (newId studentId : Nat) (b : ApplyBody) : LeaveRequest :=
  let isU := b.isUrgent.getD false
  { id := newId
    student := studentId
    fromDate := b.fromDate
    toDate := b.toDate
    reason := jsTrim b.reason
    ltype := b.ltype
    status := .pending
    remarks := none
    approvedBy := none
    approvedAt := none
    contact :=
      { address := jsTrim b.contact.address
        phone := jsTrim b.contact.phone
        emergencyName := jsTrim b.contact.emergencyName
        emergencyRelationship := jsTrim b.contact.emergencyRelationship
        emergencyPhone := jsTrim b.contact.emergencyPhone }
    isUrgent := isU
    urgentReason := if isU then b.urgentReason.map jsTrim else none }

/-- Handler of `POST /apply`: `requireStudent`, then the express-validator batch,
then the handler's sequential early returns (from-date in the past,
to-date before from-date, overlap query), then `leaveRequest.save()`;
a save failure falls into the route's `catch` as a generic 500.
`newId` is the ObjectId Mongo generates for the insert. -/
def applyHandler (store : Store) (actorRole : Role) (studentId : Nat)
    (b : ApplyBody) (now : Int) (newId : Nat) : HResp × Store :=
  if actorRole ≠ .student then
    (.err 403 "Access denied. Insufficient permissions.", store)
  else
    let errs := applyFieldErrors b
    if errs ≠ [] then (.errs 400 errs, store)
    else if b.fromDate < now then
      (.err 400 "From date cannot be in the past", store)
    else if b.toDate < b.fromDate then
      (.err 400 "To date must be after or equal to from date", store)
    else if overlapExists store studentId b.fromDate b.toDate then
      (.err 400 "You have overlapping leave requests for these dates", store)
    else
      let doc := newLeaveDoc newId studentId b
      if savePasses doc now then (.ok, store ++ [doc])
      else (.err 500 "Failed to submit leave request", store)

/-! ## PUT /:id/approve and PUT /:id/reject -/

/-- Validator chain of `PUT /:id/approve`:
`body('remarks').optional().trim().isLength({max: 200})`
(`param('id').isMongoId()` always holds for a `Nat` id). -/
def approveFieldErrors (remarks : Option String) : List String :=
  match remarks with
  | some r => if ¬((jsTrim r).length ≤ 200) then ["Invalid value"] else []
  | none => []

/-- Validator chain of `PUT /:id/reject`:
`body('remarks').trim().isLength({min: 5, max: 200})` — required. -/
def rejectFieldErrors (remarks : Option String) : List String :=
  match remarks with
  | some r =>
      if ¬(5 ≤ (jsTrim r).length ∧ (jsTrim r).length ≤ 200) then
        ["Rejection remarks are required (5-200 characters)"] else []
  | none => ["Rejection remarks are required (5-200 characters)"]

/-- Method `leaveRequestSchema.methods.approve(approvedBy, remarks = '')`:
the in-memory document after the field assignments, before `save()`. -/
def approvedDoc (lr : LeaveRequest) (approverId : Nat) (now : Int)
    (remarks : Option String) : LeaveRequest :=
  { lr with
    status := .approved
    approvedBy := some approverId
    approvedAt := some now
    remarks := some (jsTrim (remarks.getD "")) }

/-- Method `leaveRequestSchema.methods.reject(approvedBy, remarks = '')`:
same assignments with status `rejected`. -/
def rejectedDoc (lr : LeaveRequest) (approverId : Nat) (now : Int)
    (remarks : Option String) : LeaveRequest :=
  { lr with
    status := .rejected
    approvedBy := some approverId
    approvedAt := some now
    remarks := some (jsTrim (remarks.getD "")) }

/-- Handler of `PUT /:id/approve`: `canApproveLeave` middleware, `validationResult`
check, `findById`, the `status !== 'pending'` guard, then
`leaveRequest.approve(approverId, remarks)` whose `save()` either
persists the updated document or falls into the route's `catch`. -/
def approveHandler (store : Store) (actorRole : Role) (approverId : Nat)
    (reqId : Nat) (remarks : Option String) (now : Int) : HResp × Store :=
  if ¬(canApproveLeaves actorRole) then
    (.err 403 "Access denied. You cannot approve leave requests.", store)
  else
    let errs := approveFieldErrors remarks
    if errs ≠ [] then (.errs 400 errs, store)
    else
      match findById store reqId with
      | none => (.err 404 "Leave request not found", store)
      | some lr =>
        if lr.status ≠ .pending then
          (.err 400 "Leave request is not pending", store)
        else
          let upd := approvedDoc lr approverId now remarks
          if savePasses upd now then (.ok, replaceById store upd)
          else (.err 500 "Failed to approve leave request", store)

/-- Handler of `PUT /:id/reject`: same shape as approve with the required-remarks
validator and `leaveRequest.reject`. -/
def rejectHandler (store : Store) (actorRole : Role) (approverId : Nat)
    (reqId : Nat) (remarks : Option String) (now : Int) : HResp × Store :=
  if ¬(canApproveLeaves actorRole) then
    (.err 403 "Access denied. You cannot approve leave requests.", store)
  else
    let errs := rejectFieldErrors remarks
    if errs ≠ [] then (.errs 400 errs, store)
    else
      match findById store reqId with
      | none => (.err 404 "Leave request not found", store)
      | some lr =>
        if lr.status ≠ .pending then
          (.err 400 "Leave request is not pending", store)
        else
          let upd := rejectedDoc lr approverId now remarks
          if savePasses upd now then (.ok, replaceById store upd)
          else (.err 500 "Failed to reject leave request", store)

/-! ## GET /:id and DELETE /:id -/

/-- Handler of `GET /:id`: `findById` (404 when absent) happens before the access
check `role !== 'admin' && !canApproveLeaves() && student !== userId`.
Read-only, so only the response is returned. -/
def viewHandler (store : Store) (actorRole : Role) (actorId : Nat)
    (reqId : Nat) : HResp :=
  match findById store reqId with
  | none => .err 404 "Leave request not found"
  | some lr =>
    if actorRole ≠ .admin ∧ ¬(canApproveLeaves actorRole) ∧ lr.student ≠ actorId then
      .err 403 "Access denied"
    else .ok

/-- Handler of `DELETE /:id` (cancel): `requireStudent` middleware, `findById`
(404 when absent), ownership check (403), `status !== 'pending'` guard
(400), then `findByIdAndDelete`. -/
def cancelHandler (store : Store) (actorRole : Role) (actorId : Nat)
    (reqId : Nat) : HResp × Store :=
  if actorRole ≠ .student then
    (.err 403 "Access denied. Insufficient permissions.", store)
  else
    match findById store reqId with
    | none => (.err 404 "Leave request not found", store)
    | some lr =>
      if lr.student ≠ actorId then
        (.err 403 "You can only cancel your own leave requests", store)
      else if lr.status ≠ .pending then
        (.err 400 "Only pending leave requests can be cancelled", store)
      else (.ok, deleteById store reqId)

/-! ## Concurrency decomposition of approve

The source's approve flow is not one conditional write: the handler does
`await LeaveRequest.findById(id)` (a store read), checks
`leaveRequest.status !== 'pending'` on that in-memory snapshot, and then
`leaveRequest.approve(...)` calls `save()` on the snapshot, which persists
the whole document unconditionally (no guard on the currently stored
status).  We split the flow at its store accesses: a read phase and a
check-then-write phase taken on the snapshot, and compose them under
different interleavings. -/

/-- The post-read part of `PUT /:id/approve`: the pending check on the
in-memory snapshot `snap`, then `snap.approve(...).save()` against the
current store (which may have changed since the read). -/
def approveWritePhase (store : Store) (snap : LeaveRequest) (approverId : Nat)
    (remarks : Option String) (now : Int) : HResp × Store :=
  if snap.status ≠ .pending then
    (.err 400 "Leave request is not pending", store)
  else
    let upd := approvedDoc snap approverId now remarks
    if savePasses upd now then (.ok, replaceById store upd)
    else (.err 500 "Failed to approve leave request", store)

/-- Two approve invocations under the interleaving `read₁ read₂ write₁
write₂`: both `findById` reads happen against the initial store before
either write phase runs. -/
def approveRaceBothReadFirst (store : Store) (reqId : Nat)
    (a1 a2 : Nat) (r1 r2 : Option String) (now : Int) :
    (HResp × HResp) × Store :=
  match findById store reqId with
  | none =>
      ((.err 404 "Leave request not found", .err 404 "Leave request not found"),
       store)
  | some snap =>
      let p1 := approveWritePhase store snap a1 r1 now
      let p2 := approveWritePhase p1.2 snap a2 r2 now
      ((p1.1, p2.1), p2.2)

/-- Two approve invocations run one after the other (the serialized
schedule): the second handler starts on the store the first produced. -/
def approveTwiceSeq (store : Store) (role1 role2 : Role) (reqId : Nat)
    (a1 a2 : Nat) (r1 r2 : Option String) (now : Int) :
    (HResp × HResp) × Store :=
  let p1 := approveHandler store role1 a1 reqId r1 now
  let p2 := approveHandler p1.2 role2 a2 reqId r2 now
  ((p1.1, p2.1), p2.2)

/-! ## PUT /profile (auth routes and users routes) -/

/-- The `emergencyContact` sub-document of a user. -/
structure EmergencyContact where
  name : String
  relationship : String
  phone : String
deriving DecidableEq, Repr

/-- A persisted `User` document (fields the profile routes touch).
Optional schema paths without defaults are `Option`s. -/
structure UserDoc where
  id : Nat
  name : String
  email : String
  role : String
  googleId : Option String
  studentId : Option String
  department : Option String
  hostel : Option String
  roomNumber : Option String
  contactNumber : Option String
  profilePicture : String
  year : Option Nat
  isActive : Bool
  emergency : Option EmergencyContact
deriving DecidableEq, Repr

/-- The keys a `PUT /profile` JSON body can carry (the schema paths the
update loop `user[key] = updateData[key]` can reach). -/
inductive UserKey where
  | email | role | googleId | studentId | year | name | contactNumber
  | department | hostel | roomNumber | profilePicture | isActive
  | emergencyContact
deriving DecidableEq, Repr

/-- A JSON value of a profile-update body field. -/
inductive FieldVal where
  | str (s : String)
  | num (n : Nat)
  | boolean (b : Bool)
  | contact (name relationship phone : String)
deriving DecidableEq, Repr

/-- Assignment `user[key] = value` for one body key.  A value whose JSON type does
not fit the schema path is dropped here; Mongoose would fail the cast at
`save()`, and that corner is not reached by any theorem below. -/
def setUserField (u : UserDoc) (k : UserKey) (v : FieldVal) : UserDoc :=
  match k, v with
  | .name, .str s => { u with name := s }
  | .email, .str s => { u with email := s }
  | .role, .str s => { u with role := s }
  | .googleId, .str s => { u with googleId := some s }
  | .studentId, .str s => { u with studentId := some s }
  | .year, .num n => { u with year := some n }
  | .contactNumber, .str s => { u with contactNumber := some s }
  | .department, .str s => { u with department := some s }
  | .hostel, .str s => { u with hostel := some s }
  | .roomNumber, .str s => { u with roomNumber := some s }
  | .profilePicture, .str s => { u with profilePicture := s }
  | .isActive, .boolean b => { u with isActive := b }
  | .emergencyContact, .contact n r p => { u with emergency := some ⟨n, r, p⟩ }
  | _, _ => u

/-- The `delete updateData.<key>` statements followed by the
`Object.keys(updateData).forEach(key => user[key] = updateData[key])`
loop: keys in `deleted` are removed, the remaining entries are assigned
in order. -/
def applyProfileUpdate (u : UserDoc) (payload : List (UserKey × FieldVal))
    (deleted : List UserKey) : UserDoc :=
  (payload.filter (fun kv => kv.1 ∉ deleted)).foldl
    (fun acc kv => setUserField acc kv.1 kv.2) u

/-- Value of a body key (a JSON object keeps the last duplicate). -/
def lookupField (payload : List (UserKey × FieldVal)) (k : UserKey) :
    Option FieldVal :=
  (payload.reverse.find? (fun kv => kv.1 = k)).map (fun kv => kv.2)

/-- The `.trim()` sanitizers of the profile validator chains, applied to
the body values they target. -/
def sanitizeProfilePayload (payload : List (UserKey × FieldVal)) :
    List (UserKey × FieldVal) :=
  payload.map (fun kv =>
    match kv with
    | (.name, .str s) => (.name, .str (jsTrim s))
    | (.department, .str s) => (.department, .str (jsTrim s))
    | (.hostel, .str s) => (.hostel, .str (jsTrim s))
    | (.roomNumber, .str s) => (.roomNumber, .str (jsTrim s))
    | (.emergencyContact, .contact n r p) =>
        (.emergencyContact, .contact (jsTrim n) (jsTrim r) (jsTrim p))
    | other => other)

/-- The optional express-validator checks shared by both `PUT /profile`
routes (`name` 2–100, `contactNumber` ten digits, `department`/`hostel`
≤ 100, `roomNumber` ≤ 20, `emergencyContact` subfield bounds). -/
def profileFieldErrors (payload : List (UserKey × FieldVal)) : List String :=
  (match lookupField payload .name with
   | some (.str s) =>
       if ¬(2 ≤ (jsTrim s).length ∧ (jsTrim s).length ≤ 100) then ["Invalid value"] else []
   | _ => []) ++
  (match lookupField payload .contactNumber with
   | some (.str s) => if ¬(isTenDigits s) then ["Invalid value"] else []
   | _ => []) ++
  (match lookupField payload .department with
   | some (.str s) => if ¬((jsTrim s).length ≤ 100) then ["Invalid value"] else []
   | _ => []) ++
  (match lookupField payload .hostel with
   | some (.str s) => if ¬((jsTrim s).length ≤ 100) then ["Invalid value"] else []
   | _ => []) ++
  (match lookupField payload .roomNumber with
   | some (.str s) => if ¬((jsTrim s).length ≤ 20) then ["Invalid value"] else []
   | _ => []) ++
  (match lookupField payload .emergencyContact with
   | some (.contact n r p) =>
       (if ¬((jsTrim n).length ≤ 100) then ["Invalid value"] else []) ++
       (if ¬((jsTrim r).length ≤ 50) then ["Invalid value"] else []) ++
       (if ¬(isTenDigits p) then ["Invalid value"] else [])
   | _ => [])

/-- Characters the local part of `userSchema.email`'s regex
`/^[a-zA-Z0-9._%+-]+@nitgoa\.ac\.in$/` accepts. -/
def emailLocalChar (c : Char) : Bool :=
  c.isAlphanum || c = '.' || c = '_' || c = '%' || c = '+' || c = '-'

/-- Validation of `userSchema` at `save()`: the email regex and the
`endsWith('@nitgoa.ac.in')` pre-save hook, required/maxlength paths, the
role enum, and the student-specific pre-save hook
(`studentId` present and `year` in 1–4 when role is `student`). -/
def userSavePasses (u : UserDoc) : Bool :=
  (suffixIs u.email "@nitgoa.ac.in" &&
    (dropSuffixStr u.email "@nitgoa.ac.in").length > 0 &&
    (dropSuffixStr u.email "@nitgoa.ac.in").toList.all emailLocalChar) &&
  (u.name ≠ "" && u.name.length ≤ 100 : Bool) &&
  (u.role = "student" || u.role = "caretaker" || u.role = "warden" ||
    u.role = "admin") &&
  (match u.contactNumber with | some c => isTenDigits c | none => true : Bool) &&
  (match u.department with | some d => d.length ≤ 100 | none => true : Bool) &&
  (match u.hostel with | some h => h.length ≤ 100 | none => true : Bool) &&
  (match u.roomNumber with | some r => r.length ≤ 20 | none => true : Bool) &&
  (if u.role = "student" then
    (u.studentId.getD "" ≠ "" : Bool) &&
    (match u.year with | some y => 1 ≤ y && y ≤ 4 | none => false)
   else true)

/-- A `PUT /profile` handler: express-validator batch, the `delete`s of
the protected keys, the assignment loop, then `user.save()`; a failing
save falls into the route's `catch` (500) and persists nothing. -/
def profileHandler (deleted : List UserKey) (u : UserDoc)
    (payload : List (UserKey × FieldVal)) : HResp × UserDoc :=
  let errs := profileFieldErrors payload
  if errs ≠ [] then (.errs 400 errs, u)
  else
    let u' := applyProfileUpdate u (sanitizeProfilePayload payload) deleted
    if userSavePasses u' then (.ok, u')
    else (.err 500 "Profile update failed", u)

/-- Handler of `PUT /profile` in the auth routes: deletes `email`, `role`,
`googleId` from the body before the assignment loop. -/
def authProfileHandler (u : UserDoc) (payload : List (UserKey × FieldVal)) :
    HResp × UserDoc :=
  profileHandler [.email, .role, .googleId] u payload

/-- Handler of `PUT /profile` in the users routes: additionally deletes
`studentId` and `year`. -/
def usersProfileHandler (u : UserDoc) (payload : List (UserKey × FieldVal)) :
    HResp × UserDoc :=
  profileHandler [.email, .role, .googleId, .studentId, .year] u payload

/-! ## Concrete fixtures for witnesses and counterexamples -/

/-- A contact block satisfying every validator. -/
def goodContact : ContactDetails :=
  { address := "Hostel A Room 12", phone := "1234567890",
    emergencyName := "Jane Doe", emergencyRelationship := "Mother",
    emergencyPhone := "0987654321" }

/-- A pending leave request for student 10 over days 100–200. -/
def pendingReq : LeaveRequest :=
  { id := 1, student := 10, fromDate := 100, toDate := 200,
    reason := "Family function at home", ltype := .home, status := .pending,
    remarks := none, approvedBy := none, approvedAt := none,
    contact := goodContact, isUrgent := false, urgentReason := none }

/-- An already approved leave request. -/
def approvedReq : LeaveRequest :=
  { pendingReq with
      status := .approved, remarks := some "Fine",
      approvedBy := some 7, approvedAt := some 40 }

/-- A rejected leave request for student 10 over days 300–400. -/
def rejectedReq : LeaveRequest :=
  { pendingReq with
      id := 3, status := .rejected, fromDate := 300,
      toDate := 400, remarks := some "No reason given",
      approvedBy := some 7, approvedAt := some 40 }

/-- A submission draft passing every field check, over days 300–400. -/
def goodBody : ApplyBody :=
  { fromDate := 300, toDate := 400, reason := "Family function at home",
    ltype := .home, contact := goodContact, isUrgent := none,
    urgentReason := none }

/-- A draft overlapping `pendingReq` (days 150–250). -/
def overlapBody : ApplyBody :=
  { goodBody with fromDate := 150, toDate := 250 }

/-- A draft with a from-date in the past (day 20 against now = 50) that
also overlaps `pendingReq`. -/
def pastOverlapBody : ApplyBody :=
  { goodBody with fromDate := 20, toDate := 250 }

/-- A draft marked urgent whose urgent reason is the empty string. -/
def urgentEmptyBody : ApplyBody :=
  { goodBody with isUrgent := some true, urgentReason := some "" }

/-- A draft violating two field checks (short reason, bad phone). -/
def badFieldsBody : ApplyBody :=
  { goodBody with
      reason := "Short",
      contact := { goodContact with phone := "12345" } }

/-- A student user document. -/
def aliceU : UserDoc :=
  { id := 10, name := "Alice", email := "alice@nitgoa.ac.in",
    role := "student", googleId := some "g123", studentId := some "S1",
    department := none, hostel := none, roomNumber := none,
    contactNumber := none, profilePicture := "", year := some 2,
    isActive := true, emergency := none }

/-! ## Helper lemmas -/

/-- A document returned by `findById` carries the looked-up id. -/
theorem findById_id (store : Store) (i : Nat) (lr : LeaveRequest)
    (h : findById store i = some lr) : lr.id = i := by
  have := List.find?_some h
  simpa using this

/-- After saving a document whose id was present, `findById` returns the
saved document. -/
theorem findById_replaceById_self (store : Store) (i : Nat)
    (lr doc : LeaveRequest) (hfind : findById store i = some lr)
    (hid : doc.id = i) : findById (replaceById store doc) i = some doc := by
  induction store with
  | nil => simp [findById] at hfind
  | cons a t ih =>
    by_cases ha : a.id = i
    · simp [findById, replaceById, ha.trans hid.symm, hid]
    · have ha2 : ¬ a.id = doc.id := fun h => ha (h.trans hid)
      have hfind2 : findById t i = some lr := by
        simpa [findById, List.find?_cons, ha] using hfind
      simpa [findById, replaceById, ha2, ha] using ih hfind2

/-- After `findByIdAndDelete`, the id no longer resolves. -/
theorem findById_deleteById (store : Store) (i : Nat) :
    findById (deleteById store i) i = none := by
  rw [findById, List.find?_eq_none]
  intro r hr
  have := List.of_mem_filter hr
  simpa using this

/-- Unfolding of the overlap query into the claim's wording. -/
theorem overlapExists_iff (store : Store) (sid : Nat) (f t : Int) :
    overlapExists store sid f t = true ↔
    ∃ r ∈ store, r.student = sid ∧
      (r.status = Status.pending ∨ r.status = Status.approved) ∧
      r.fromDate ≤ t ∧ f ≤ r.toDate := by
  rw [overlapExists, List.any_eq_true]
  constructor
  · rintro ⟨r, hr, hh⟩
    refine ⟨r, hr, ?_⟩
    simpa [and_assoc] using hh
  · rintro ⟨r, hr, hh⟩
    refine ⟨r, hr, ?_⟩
    simpa [and_assoc] using hh

/-! ## Claim theorems -/

/-- C1: invoking approve or reject on a leave request whose persisted
status is `approved` or `rejected` fails with the InvalidTransition
response (`400 "Leave request is not pending"`) and leaves the store —
in particular the document's status, remarks, approvedBy and approvedAt
— unchanged; approve and reject succeed only when the current status is
`pending`. -/
theorem approve_reject_only_from_pending
    (store : Store) (role : Role) (aid rid : Nat) (remA remR : Option String)
    (now : Int) (lr : LeaveRequest)
    (hfind : findById store rid = some lr)
    (hrole : canApproveLeaves role = true)
    (hremA : approveFieldErrors remA = [])
    (hremR : rejectFieldErrors remR = []) :
    (lr.status ≠ Status.pending →
      approveHandler store role aid rid remA now
        = (.err 400 "Leave request is not pending", store) ∧
      rejectHandler store role aid rid remR now
        = (.err 400 "Leave request is not pending", store)) ∧
    ((approveHandler store role aid rid remA now).1 = HResp.ok →
      lr.status = Status.pending) ∧
    ((rejectHandler store role aid rid remR now).1 = HResp.ok →
      lr.status = Status.pending) := by
  by_cases hst : lr.status = Status.pending
  · exact ⟨fun hne => absurd hst hne, fun _ => hst, fun _ => hst⟩
  · refine ⟨fun _ => ?_, ?_, ?_⟩ <;>
      simp [approveHandler, rejectHandler, hfind, hrole, hremA, hremR, hst]

/-- Witness for C1 at a concrete input: an already approved request,
a caretaker approver, absent approve remarks and valid reject remarks. -/
theorem approve_reject_only_from_pending_witness :
    (approvedReq.status ≠ Status.pending →
      approveHandler [approvedReq] .caretaker 5 1 none 50
        = (.err 400 "Leave request is not pending", [approvedReq]) ∧
      rejectHandler [approvedReq] .caretaker 5 1 (some "Not approved this time") 50
        = (.err 400 "Leave request is not pending", [approvedReq])) ∧
    ((approveHandler [approvedReq] .caretaker 5 1 none 50).1 = HResp.ok →
      approvedReq.status = Status.pending) ∧
    ((rejectHandler [approvedReq] .caretaker 5 1 (some "Not approved this time") 50).1
        = HResp.ok →
      approvedReq.status = Status.pending) :=
  approve_reject_only_from_pending [approvedReq] .caretaker 5 1 none
    (some "Not approved this time") 50 approvedReq (by decide) (by decide)
    (by decide) (by decide)

/-- C5: rejecting a pending request with empty or absent remarks fails
with the express-validator 400 response and changes nothing, while
approving with absent remarks succeeds and persists the request with
status `approved` and remarks equal to the empty string. -/
theorem reject_requires_remarks_approve_defaults_empty
    (store : Store) (role : Role) (aid rid : Nat) (now : Int)
    (lr : LeaveRequest)
    (hrole : canApproveLeaves role = true)
    (hfind : findById store rid = some lr)
    (hst : lr.status = Status.pending)
    (hsave : savePasses (approvedDoc lr aid now none) now = true) :
    rejectHandler store role aid rid none now
      = (.errs 400 ["Rejection remarks are required (5-200 characters)"], store) ∧
    rejectHandler store role aid rid (some "") now
      = (.errs 400 ["Rejection remarks are required (5-200 characters)"], store) ∧
    approveHandler store role aid rid none now
      = (.ok, replaceById store (approvedDoc lr aid now none)) ∧
    (approvedDoc lr aid now none).status = Status.approved ∧
    (approvedDoc lr aid now none).remarks = some "" := by
  refine ⟨?_, ?_, ?_, ?_, ?_⟩
  · simp [rejectHandler, rejectFieldErrors, hrole]
  · simp [rejectHandler, rejectFieldErrors, hrole, jsTrim, trimChars]
  · simp [approveHandler, approveFieldErrors, hfind, hrole, hst, hsave]
  · simp [approvedDoc]
  · simp [approvedDoc, jsTrim, trimChars]

/-- Witness for C5 at a concrete input: a pending request and a
caretaker approver at time 50. -/
theorem reject_requires_remarks_approve_defaults_empty_witness :
    rejectHandler [pendingReq] .caretaker 5 1 none 50
      = (.errs 400 ["Rejection remarks are required (5-200 characters)"], [pendingReq]) ∧
    rejectHandler [pendingReq] .caretaker 5 1 (some "") 50
      = (.errs 400 ["Rejection remarks are required (5-200 characters)"], [pendingReq]) ∧
    approveHandler [pendingReq] .caretaker 5 1 none 50
      = (.ok, replaceById [pendingReq] (approvedDoc pendingReq 5 50 none)) ∧
    (approvedDoc pendingReq 5 50 none).status = Status.approved ∧
    (approvedDoc pendingReq 5 50 none).remarks = some "" :=
  reject_requires_remarks_approve_defaults_empty [pendingReq] .caretaker 5 1 50
    pendingReq (by decide) (by decide) (by decide) (by decide)

/-- C2 counterexample: the source's approve is a `findById` read followed
by an unguarded `save()`, not one atomic conditional write.  On a
concrete pending request, the interleaving in which both invocations
read before either writes makes both report success, contradicting
"exactly one invocation succeeds and the other fails with
InvalidTransition; it is never the case that both succeed". -/
theorem approve_race_both_succeed :
    pendingReq.status = Status.pending ∧
    (approveRaceBothReadFirst [pendingReq] 1 5 6 none none 50).1
      = (HResp.ok, HResp.ok) := by decide

/-- C2 amended: approve is a non-atomic read-then-write.  When the two
invocations are serialized, exactly one succeeds and the other observes
the InvalidTransition response; but under the interleaving where both
read the pending snapshot before either write, both succeed. -/
theorem approve_serialized_vs_interleaved
    (store : Store) (role1 role2 : Role) (reqId a1 a2 : Nat)
    (r1 r2 : Option String) (now : Int) (lr : LeaveRequest)
    (hfind : findById store reqId = some lr)
    (hrole1 : canApproveLeaves role1 = true)
    (hrole2 : canApproveLeaves role2 = true)
    (hrem1 : approveFieldErrors r1 = [])
    (hrem2 : approveFieldErrors r2 = [])
    (hst : lr.status = Status.pending)
    (hsave1 : savePasses (approvedDoc lr a1 now r1) now = true)
    (hsave2 : savePasses (approvedDoc lr a2 now r2) now = true) :
    (approveTwiceSeq store role1 role2 reqId a1 a2 r1 r2 now).1
      = (HResp.ok, HResp.err 400 "Leave request is not pending") ∧
    (approveRaceBothReadFirst store reqId a1 a2 r1 r2 now).1
      = (HResp.ok, HResp.ok) := by
  have hid : (approvedDoc lr a1 now r1).id = reqId := by
    simp [approvedDoc, findById_id store reqId lr hfind]
  have hfind2 := findById_replaceById_self store reqId lr
    (approvedDoc lr a1 now r1) hfind hid
  constructor
  · have h1 : approveHandler store role1 a1 reqId r1 now
        = (.ok, replaceById store (approvedDoc lr a1 now r1)) := by
      simp [approveHandler, hfind, hrole1, hrem1, hst, hsave1]
    have hstatus : (approvedDoc lr a1 now r1).status = Status.approved := rfl
    have h2 : approveHandler (replaceById store (approvedDoc lr a1 now r1))
        role2 a2 reqId r2 now
        = (.err 400 "Leave request is not pending",
           replaceById store (approvedDoc lr a1 now r1)) := by
      simp [approveHandler, hfind2, hrole2, hrem2, hstatus]
    simp [approveTwiceSeq, h1, h2]
  · simp [approveRaceBothReadFirst, hfind, approveWritePhase, hst, hsave1, hsave2]

/-- Witness for the amended C2 at a concrete input: one pending request,
two caretaker approvers 5 and 6 at time 50. -/
theorem approve_serialized_vs_interleaved_witness :
    (approveTwiceSeq [pendingReq] .caretaker .warden 1 5 6 none none 50).1
      = (HResp.ok, HResp.err 400 "Leave request is not pending") ∧
    (approveRaceBothReadFirst [pendingReq] 1 5 6 none none 50).1
      = (HResp.ok, HResp.ok) :=
  approve_serialized_vs_interleaved [pendingReq] .caretaker .warden 1 5 6
    none none 50 pendingReq (by decide) (by decide) (by decide) (by decide)
    (by decide) (by decide) (by decide) (by decide)

/-- C3: a submission whose interval inclusively intersects an existing
request of the same student with status `pending` or `approved` fails and
creates no document (and, once the field and date checks pass, fails with
exactly the overlap error); existing requests with status `rejected`
never block, so with no pending/approved overlap and a valid draft the
submission succeeds and appends the new document. -/
theorem overlap_blocks_submission
    (store : Store) (sid : Nat) (b : ApplyBody) (now : Int) (newId : Nat) :
    ((∃ r ∈ store, r.student = sid ∧
        (r.status = Status.pending ∨ r.status = Status.approved) ∧
        r.fromDate ≤ b.toDate ∧ b.fromDate ≤ r.toDate) →
      (applyHandler store .student sid b now newId).1 ≠ HResp.ok ∧
      (applyHandler store .student sid b now newId).2 = store) ∧
    (applyFieldErrors b = [] → now ≤ b.fromDate → b.fromDate ≤ b.toDate →
      (∃ r ∈ store, r.student = sid ∧
        (r.status = Status.pending ∨ r.status = Status.approved) ∧
        r.fromDate ≤ b.toDate ∧ b.fromDate ≤ r.toDate) →
      applyHandler store .student sid b now newId
        = (.err 400 "You have overlapping leave requests for these dates", store)) ∧
    (applyFieldErrors b = [] → now ≤ b.fromDate → b.fromDate ≤ b.toDate →
      ¬(∃ r ∈ store, r.student = sid ∧
        (r.status = Status.pending ∨ r.status = Status.approved) ∧
        r.fromDate ≤ b.toDate ∧ b.fromDate ≤ r.toDate) →
      savePasses (newLeaveDoc newId sid b) now = true →
      applyHandler store .student sid b now newId
        = (.ok, store ++ [newLeaveDoc newId sid b])) := by
  have hov := overlapExists_iff store sid b.fromDate b.toDate
  refine ⟨?_, ?_, ?_⟩
  · intro hex
    have hovT : overlapExists store sid b.fromDate b.toDate = true := hov.mpr hex
    unfold applyHandler
    by_cases he : applyFieldErrors b = []
    · by_cases h1 : b.fromDate < now
      · simp [he, h1]
      · by_cases h2 : b.toDate < b.fromDate
        · simp [he, h1, h2]
        · simp [he, h1, h2, hovT]
    · simp [he]
  · intro he hfrom hto hex
    have hovT : overlapExists store sid b.fromDate b.toDate = true := hov.mpr hex
    simp [applyHandler, he, not_lt.mpr hfrom, not_lt.mpr hto, hovT]
  · intro he hfrom hto hex hsave
    have hovF : overlapExists store sid b.fromDate b.toDate = false := by
      cases hb : overlapExists store sid b.fromDate b.toDate
      · rfl
      · exact absurd (hov.mp hb) hex
    simp [applyHandler, he, not_lt.mpr hfrom, not_lt.mpr hto, hovF, hsave]

/-- Witness for C3 at concrete inputs: a draft overlapping an existing
pending request is refused with the overlap error, while the same-dates
draft against a rejected request succeeds and appends the document. -/
theorem overlap_blocks_submission_witness :
    applyHandler [pendingReq] .student 10 overlapBody 50 2
      = (.err 400 "You have overlapping leave requests for these dates", [pendingReq]) ∧
    rejectedReq.status = Status.rejected ∧
    rejectedReq.fromDate ≤ goodBody.toDate ∧
    goodBody.fromDate ≤ rejectedReq.toDate ∧
    applyHandler [rejectedReq] .student 10 goodBody 50 2
      = (.ok, [rejectedReq] ++ [newLeaveDoc 2 10 goodBody]) :=
  ⟨(overlap_blocks_submission [pendingReq] 10 overlapBody 50 2).2.1
      (by decide) (by decide) (by decide) (by decide),
   by decide, by decide, by decide,
   (overlap_blocks_submission [rejectedReq] 10 goodBody 50 2).2.2
      (by decide) (by decide) (by decide) (by decide) (by decide)⟩

/-- C4 counterexample: a concrete submission that violates both the
date-range rule (from-date 20 is before now = 50) and the overlap rule
(it intersects an existing pending request), yet the response reports
only the first violation — a single `error` string with no mention of
the overlap — so validation does not enumerate every violated rule. -/
theorem apply_multi_violation_single_error :
    pastOverlapBody.fromDate < 50 ∧
    overlapExists [pendingReq] 10 pastOverlapBody.fromDate pastOverlapBody.toDate = true ∧
    applyHandler [pendingReq] .student 10 pastOverlapBody 50 2
      = (.err 400 "From date cannot be in the past", [pendingReq]) := by decide

/-- C4 amended: only the express-validator field checks are reported in
aggregate (every failing field check appears in one 400 response); the
business-rule checks are sequential early returns, so a submission whose
from-date is in the past gets only that error, whatever other business
rules (such as overlap) the draft also violates. -/
theorem apply_field_batch_business_failfast
    (store : Store) (sid : Nat) (b : ApplyBody) (now : Int) (newId : Nat) :
    (applyFieldErrors b ≠ [] →
      applyHandler store .student sid b now newId
        = (.errs 400 (applyFieldErrors b), store)) ∧
    (applyFieldErrors b = [] → b.fromDate < now →
      applyHandler store .student sid b now newId
        = (.err 400 "From date cannot be in the past", store)) := by
  constructor
  · intro he
    simp [applyHandler, he]
  · intro he h1
    simp [applyHandler, he, h1]

/-- Witness for the amended C4: a draft violating two field checks gets
both messages in one response; a draft with a past from-date over an
overlapping store gets only the date error. -/
theorem apply_field_batch_business_failfast_witness :
    applyHandler [] .student 10 badFieldsBody 50 2
      = (.errs 400 ["Reason must be between 10 and 500 characters",
                    "Valid phone number is required"], []) ∧
    applyHandler [pendingReq] .student 10 pastOverlapBody 50 2
      = (.err 400 "From date cannot be in the past", [pendingReq]) :=
  ⟨((apply_field_batch_business_failfast [] 10 badFieldsBody 50 2).1
      (by decide)).trans (by decide),
   (apply_field_batch_business_failfast [pendingReq] 10 pastOverlapBody 50 2).2
      (by decide) (by decide)⟩

/-- C6: a submission whose from-date is before the submission-time now,
or whose to-date is before its from-date, fails and persists nothing;
otherwise the two date checks pass (the response is never one of the two
date errors). -/
theorem apply_date_checks
    (store : Store) (sid : Nat) (b : ApplyBody) (now : Int) (newId : Nat) :
    ((b.fromDate < now ∨ b.toDate < b.fromDate) →
      (applyHandler store .student sid b now newId).1 ≠ HResp.ok ∧
      (applyHandler store .student sid b now newId).2 = store) ∧
    (now ≤ b.fromDate → b.fromDate ≤ b.toDate →
      (applyHandler store .student sid b now newId).1
        ≠ HResp.err 400 "From date cannot be in the past" ∧
      (applyHandler store .student sid b now newId).1
        ≠ HResp.err 400 "To date must be after or equal to from date") := by
  constructor
  · intro hd
    unfold applyHandler
    by_cases he : applyFieldErrors b = []
    · by_cases h1 : b.fromDate < now
      · simp [he, h1]
      · rcases hd with hd | hd
        · exact absurd hd h1
        · simp [he, h1, hd]
    · simp [he]
  · intro hfrom hto
    unfold applyHandler
    by_cases he : applyFieldErrors b = []
    · by_cases hovb : overlapExists store sid b.fromDate b.toDate
      · simp [he, not_lt.mpr hfrom, not_lt.mpr hto, hovb]
      · by_cases hs : savePasses (newLeaveDoc newId sid b) now
        · simp [he, not_lt.mpr hfrom, not_lt.mpr hto, hovb, hs]
        · simp [he, not_lt.mpr hfrom, not_lt.mpr hto, hovb, hs]
    · simp [he]

/-- Witness for C6: a draft dated in the past is refused with nothing
persisted; a well-dated draft is never answered with a date error. -/
theorem apply_date_checks_witness :
    ((applyHandler [pendingReq] .student 10 pastOverlapBody 50 2).1 ≠ HResp.ok ∧
     (applyHandler [pendingReq] .student 10 pastOverlapBody 50 2).2 = [pendingReq]) ∧
    ((applyHandler [] .student 10 goodBody 50 2).1
        ≠ HResp.err 400 "From date cannot be in the past" ∧
     (applyHandler [] .student 10 goodBody 50 2).1
        ≠ HResp.err 400 "To date must be after or equal to from date") :=
  ⟨(apply_date_checks [pendingReq] 10 pastOverlapBody 50 2).1 (by decide),
   (apply_date_checks [] 10 goodBody 50 2).2 (by decide) (by decide)⟩

/-- C7 counterexample: a concrete draft with the urgent flag set and an
empty urgent reason is indeed refused with nothing persisted, but the
response is the generic 500 `Failed to submit leave request` from the
route's catch block — not a 400 validation response naming the missing
urgent reason, as the claim states. -/
theorem urgent_empty_reason_not_validation_error :
    urgentEmptyBody.isUrgent = some true ∧
    urgentEmptyBody.urgentReason = some "" ∧
    applyHandler [] .student 10 urgentEmptyBody 50 2
      = (.err 500 "Failed to submit leave request", []) ∧
    (applyHandler [] .student 10 urgentEmptyBody 50 2).1
      ≠ HResp.err 400 "Urgent reason is required when marking as urgent" ∧
    (applyHandler [] .student 10 urgentEmptyBody 50 2).1
      ≠ HResp.errs 400 ["Urgent reason is required when marking as urgent"] := by
  decide

/-- C7 amended: a draft with the urgent flag set and an empty (or absent)
urgent reason fails — the urgency rule is enforced by the save-time
validation, which the route surfaces as the generic 500 response — and no
document is persisted; a draft with the flag unset never requires an
urgency reason (the submission succeeds whenever the other checks pass). -/
theorem urgency_enforced_at_save
    (store : Store) (sid : Nat) (b : ApplyBody) (now : Int) (newId : Nat)
    (hfields : applyFieldErrors b = [])
    (hfrom : now ≤ b.fromDate) (hto : b.fromDate ≤ b.toDate)
    (hnov : overlapExists store sid b.fromDate b.toDate = false) :
    (b.isUrgent = some true → (b.urgentReason.map jsTrim).getD "" = "" →
      applyHandler store .student sid b now newId
        = (.err 500 "Failed to submit leave request", store)) ∧
    (b.isUrgent.getD false = false →
      savePasses (newLeaveDoc newId sid b) now = true →
      applyHandler store .student sid b now newId
        = (.ok, store ++ [newLeaveDoc newId sid b])) := by
  constructor
  · intro hu hempty
    have hdoc : (newLeaveDoc newId sid b).isUrgent = true := by
      simp [newLeaveDoc, hu]
    have hdoc2 : (newLeaveDoc newId sid b).urgentReason.getD "" = "" := by
      simp [newLeaveDoc, hu, hempty]
    have hsaveF : savePasses (newLeaveDoc newId sid b) now = false := by
      simp [savePasses, hdoc, hdoc2]
    simp [applyHandler, hfields, not_lt.mpr hfrom, not_lt.mpr hto, hnov, hsaveF]
  · intro _ hsave
    simp [applyHandler, hfields, not_lt.mpr hfrom, not_lt.mpr hto, hnov, hsave]

/-- Witness for the amended C7: the urgent-empty draft gets the generic
500 with nothing persisted; the same draft without the flag succeeds. -/
theorem urgency_enforced_at_save_witness :
    applyHandler [] .student 10 urgentEmptyBody 50 2
      = (.err 500 "Failed to submit leave request", []) ∧
    applyHandler [] .student 10 goodBody 50 2
      = (.ok, [] ++ [newLeaveDoc 2 10 goodBody]) :=
  ⟨(urgency_enforced_at_save [] 10 urgentEmptyBody 50 2 (by decide) (by decide)
      (by decide) (by decide)).1 (by decide) (by decide),
   (urgency_enforced_at_save [] 10 goodBody 50 2 (by decide) (by decide)
      (by decide) (by decide)).2 (by decide) (by decide)⟩

/-- C8: for a student actor, cancel on someone else's request fails with
the Forbidden response; cancel on the actor's own non-pending request
fails with the InvalidTransition response; cancel succeeds and deletes
the document exactly when the actor owns it and it is pending. -/
theorem cancel_ownership_and_pending
    (store : Store) (aid rid : Nat) (lr : LeaveRequest)
    (hfind : findById store rid = some lr) :
    (lr.student ≠ aid →
      cancelHandler store .student aid rid
        = (.err 403 "You can only cancel your own leave requests", store)) ∧
    (lr.student = aid → lr.status ≠ Status.pending →
      cancelHandler store .student aid rid
        = (.err 400 "Only pending leave requests can be cancelled", store)) ∧
    (lr.student = aid → lr.status = Status.pending →
      cancelHandler store .student aid rid = (.ok, deleteById store rid) ∧
      findById (deleteById store rid) rid = none) ∧
    ((cancelHandler store .student aid rid).1 = HResp.ok →
      lr.student = aid ∧ lr.status = Status.pending) := by
  refine ⟨?_, ?_, ?_, ?_⟩
  · intro hown
    simp [cancelHandler, hfind, hown]
  · intro hown hst
    simp [cancelHandler, hfind, hown, hst]
  · intro hown hst
    exact ⟨by simp [cancelHandler, hfind, hown, hst],
           findById_deleteById store rid⟩
  · intro hok
    by_cases hown : lr.student = aid
    · by_cases hst : lr.status = Status.pending
      · exact ⟨hown, hst⟩
      · simp [cancelHandler, hfind, hown, hst] at hok
    · simp [cancelHandler, hfind, hown] at hok

/-- Witness for C8 at concrete inputs: a foreign pending request, an own
approved request and an own pending request. -/
theorem cancel_ownership_and_pending_witness :
    cancelHandler [pendingReq] .student 11 1
      = (.err 403 "You can only cancel your own leave requests", [pendingReq]) ∧
    cancelHandler [approvedReq] .student 10 1
      = (.err 400 "Only pending leave requests can be cancelled", [approvedReq]) ∧
    (cancelHandler [pendingReq] .student 10 1 = (.ok, deleteById [pendingReq] 1) ∧
     findById (deleteById [pendingReq] 1) 1 = none) :=
  ⟨(cancel_ownership_and_pending [pendingReq] 11 1 pendingReq (by decide)).1
      (by decide),
   (cancel_ownership_and_pending [approvedReq] 10 1 approvedReq (by decide)).2.1
      (by decide) (by decide),
   (cancel_ownership_and_pending [pendingReq] 10 1 pendingReq (by decide)).2.2.1
      (by decide) (by decide)⟩

/-- Assignments to a key other than `email` leave `email` unchanged. -/
theorem setUserField_ne_email (u : UserDoc) (k : UserKey) (v : FieldVal)
    (hk : k ≠ UserKey.email) : (setUserField u k v).email = u.email := by
  cases k <;> cases v <;> simp_all [setUserField]

/-- Assignments to a key other than `role` leave `role` unchanged. -/
theorem setUserField_ne_role (u : UserDoc) (k : UserKey) (v : FieldVal)
    (hk : k ≠ UserKey.role) : (setUserField u k v).role = u.role := by
  cases k <;> cases v <;> simp_all [setUserField]

/-- Assignments to a key other than `googleId` leave `googleId`
unchanged. -/
theorem setUserField_ne_googleId (u : UserDoc) (k : UserKey) (v : FieldVal)
    (hk : k ≠ UserKey.googleId) : (setUserField u k v).googleId = u.googleId := by
  cases k <;> cases v <;> simp_all [setUserField]

/-- The assignment loop never touches email, role or googleId when no
entry carries one of those keys. -/
theorem profile_foldl_keeps_identity
    (l : List (UserKey × FieldVal)) (u : UserDoc)
    (h : ∀ kv ∈ l, kv.1 ≠ UserKey.email ∧ kv.1 ≠ UserKey.role ∧
      kv.1 ≠ UserKey.googleId) :
    (l.foldl (fun acc kv => setUserField acc kv.1 kv.2) u).email = u.email ∧
    (l.foldl (fun acc kv => setUserField acc kv.1 kv.2) u).role = u.role ∧
    (l.foldl (fun acc kv => setUserField acc kv.1 kv.2) u).googleId = u.googleId := by
  induction l generalizing u with
  | nil => simp
  | cons a t ih =>
    have ha := h a (List.mem_cons_self a t)
    have ht : ∀ kv ∈ t, kv.1 ≠ UserKey.email ∧ kv.1 ≠ UserKey.role ∧
        kv.1 ≠ UserKey.googleId :=
      fun kv hkv => h kv (List.mem_cons_of_mem a hkv)
    obtain ⟨i1, i2, i3⟩ := ih (setUserField u a.1 a.2) ht
    simp only [List.foldl_cons]
    exact ⟨i1.trans (setUserField_ne_email u a.1 a.2 ha.1),
           i2.trans (setUserField_ne_role u a.1 a.2 ha.2.1),
           i3.trans (setUserField_ne_googleId u a.1 a.2 ha.2.2)⟩

/-- The update after the `delete` statements preserves the protected
fields whenever those keys are among the deleted ones. -/
theorem applyProfileUpdate_keeps_identity (u : UserDoc)
    (p : List (UserKey × FieldVal)) (deleted : List UserKey)
    (he : UserKey.email ∈ deleted) (hr : UserKey.role ∈ deleted)
    (hg : UserKey.googleId ∈ deleted) :
    (applyProfileUpdate u p deleted).email = u.email ∧
    (applyProfileUpdate u p deleted).role = u.role ∧
    (applyProfileUpdate u p deleted).googleId = u.googleId := by
  apply profile_foldl_keeps_identity
  intro kv hkv
  have hnot : kv.1 ∉ deleted := by
    have := List.of_mem_filter hkv
    exact of_decide_eq_true this
  refine ⟨?_, ?_, ?_⟩
  · intro hk; rw [hk] at hnot; exact hnot he
  · intro hk; rw [hk] at hnot; exact hnot hr
  · intro hk; rw [hk] at hnot; exact hnot hg

/-- C9: whatever fields the update payload contains, both profile-update
handlers leave the actor's email, role and external identity id
(googleId) unchanged; only the other profile fields can be modified. -/
theorem profile_update_preserves_identity_fields
    (u : UserDoc) (payload : List (UserKey × FieldVal)) :
    ((authProfileHandler u payload).2.email = u.email ∧
     (authProfileHandler u payload).2.role = u.role ∧
     (authProfileHandler u payload).2.googleId = u.googleId) ∧
    ((usersProfileHandler u payload).2.email = u.email ∧
     (usersProfileHandler u payload).2.role = u.role ∧
     (usersProfileHandler u payload).2.googleId = u.googleId) := by
  have h1 := applyProfileUpdate_keeps_identity u (sanitizeProfilePayload payload)
    [.email, .role, .googleId] (by simp) (by simp) (by simp)
  have h2 := applyProfileUpdate_keeps_identity u (sanitizeProfilePayload payload)
    [.email, .role, .googleId, .studentId, .year] (by simp) (by simp) (by simp)
  constructor
  · unfold authProfileHandler profileHandler
    by_cases herr : profileFieldErrors payload = []
    · by_cases hs : userSavePasses
        (applyProfileUpdate u (sanitizeProfilePayload payload)
          [.email, .role, .googleId]) = true
      · simpa [herr, hs] using h1
      · simp [herr, hs]
    · simp [herr]
  · unfold usersProfileHandler profileHandler
    by_cases herr : profileFieldErrors payload = []
    · by_cases hs : userSavePasses
        (applyProfileUpdate u (sanitizeProfilePayload payload)
          [.email, .role, .googleId, .studentId, .year]) = true
      · simpa [herr, hs] using h2
      · simp [herr, hs]
    · simp [herr]

/-- C10 counterexample: a caretaker invoking cancel on an id that matches
no stored document receives the Forbidden response from the route's
`requireStudent` gate, not NotFound — so it is not true that every
authenticated actor gets NotFound on a missing id for cancel. -/
theorem cancel_nonexistent_forbidden_for_nonstudent :
    findById [pendingReq] 99 = none ∧
    cancelHandler [pendingReq] .caretaker 11 99
      = (.err 403 "Access denied. Insufficient permissions.", [pendingReq]) := by
  decide

/-- C10 amended: on an id that matches no stored document, view fails
with NotFound for every authenticated actor (the existence check precedes
the access check), and cancel fails with NotFound for every student actor
(the existence check precedes the ownership check); non-student actors
are rejected by cancel's role gate before the lookup. -/
theorem notfound_precedes_access_checks
    (store : Store) (actorRole : Role) (actorId reqId : Nat)
    (hfind : findById store reqId = none) :
    viewHandler store actorRole actorId reqId
      = .err 404 "Leave request not found" ∧
    (actorRole = Role.student →
      cancelHandler store actorRole actorId reqId
        = (.err 404 "Leave request not found", store)) := by
  constructor
  · simp [viewHandler, hfind]
  · rintro rfl
    simp [cancelHandler, hfind]

/-- Witness for the amended C10: a warden viewing and a student
cancelling a missing id both get NotFound. -/
theorem notfound_precedes_access_checks_witness :
    (viewHandler [pendingReq] .warden 11 99 = .err 404 "Leave request not found" ∧
     (Role.warden = Role.student →
       cancelHandler [pendingReq] .warden 11 99
         = (.err 404 "Leave request not found", [pendingReq]))) ∧
    (viewHandler [pendingReq] .student 11 99 = .err 404 "Leave request not found" ∧
     (Role.student = Role.student →
       cancelHandler [pendingReq] .student 11 99
         = (.err 404 "Leave request not found", [pendingReq]))) :=
  ⟨notfound_precedes_access_checks [pendingReq] .warden 11 99 (by decide),
   notfound_precedes_access_checks [pendingReq] .student 11 99 (by decide)⟩

end LeaveMgmt
